import Mathlib

/-!
Shallow embedding of the viewport/cursor controller of the stack-editor
repository (src/src/editor/uicomponents/view/mod.rs) together with the
quit-confirmation logic of the editor control loop (src/src/editor.rs),
and proofs of the specified properties.

The submodules `buffer`, `line` and the prelude value types (`Position`,
`Size`, `Location`) are declared in the repository but their files are not
present; they are modelled from the spec (sections 3, 4.1, 4.2 and 9) and
each such definition carries a doc comment saying so.  Everything in the
`View` and `EditorQ` namespaces is translated directly from the Rust
source.  `usize` values are modelled as `Nat`: `saturating_sub` is exactly
`Nat` subtraction, and `saturating_add` on values far below `usize::MAX`
is `Nat` addition.
-/

/-- Modelled from the spec: `Location` from the missing prelude module
(`TextLocation`, section 3): a position `(line_idx, grapheme_idx)`. -/
structure Location where
  line_idx : Nat
  grapheme_idx : Nat
deriving DecidableEq, Repr

/-- Modelled from the spec: `Position` from the missing prelude module:
a display position `(row, col)`. -/
structure Position where
  row : Nat
  col : Nat
deriving DecidableEq, Repr

/-- Modelled from the spec: `Size` from the missing prelude module:
the terminal-visible size `(height, width)`. -/
structure Size where
  height : Nat
  width : Nat
deriving DecidableEq, Repr

/-- Modelled from the spec: componentwise saturating subtraction on
`Position` (used by `View::caret_position`); `Nat` subtraction is
saturating. -/
def Position.saturating_sub (a b : Position) : Position :=
  ⟨a.row - b.row, a.col - b.col⟩

/-- Modelled from the spec: one grapheme-cluster descriptor of a
`GraphemeLine` (section 3): its user-perceived character together with its
display width.  Widths are arbitrary data so every theorem below holds for
every width policy (spec section 9 calls the width function pluggable). -/
structure Grapheme where
  content : Char
  width : Nat
deriving DecidableEq, Repr

/-- Modelled from the spec: `Line` (`GraphemeLine`, section 4.1, file
src/src/editor/line.rs missing): an ordered sequence of grapheme
descriptors. -/
structure Line where
  graphemes : List Grapheme
deriving DecidableEq, Repr

/-- Modelled from the spec: `GraphemeLine::grapheme_count`. -/
def Line.grapheme_count (l : Line) : Nat :=
  l.graphemes.length

/-- Modelled from the spec: `Line::is_empty`. -/
def Line.is_empty (l : Line) : Bool :=
  l.graphemes.isEmpty

/-- Modelled from the spec: `GraphemeLine::width_until`: sum of display
widths of the clusters `[0, grapheme_idx)`, the index clamped to the
grapheme count (`List.take` clamps). -/
def Line.width_until (l : Line) (grapheme_idx : Nat) : Nat :=
  ((l.graphemes.take grapheme_idx).map Grapheme.width).sum

/-- Modelled from the spec: the documented default width policy for
building a `Line` from query text (spec section 9: a pluggable width
function with a documented default). -/
def charWidth (_ : Char) : Nat := 1

/-- Modelled from the spec: `Line::from(&str)`: segment a query string
into graphemes.  Each scalar is one cluster in this model. -/
def Line.fromString (s : String) : Line :=
  ⟨s.toList.map (fun c => ⟨c, charWidth c⟩)⟩

/-- Modelled from the spec: `Buffer` (`Document`, section 4.2, file
src/src/editor/uicomponents/view/buffer.rs missing): an ordered sequence
of lines plus the dirty flag.  File-identity metadata is irrelevant to the
properties proved here and omitted. -/
structure Buffer where
  lines : List Line
  dirty : Bool
deriving DecidableEq, Repr

/-- Modelled from the spec: `Buffer::height`: line count. -/
def Buffer.height (b : Buffer) : Nat :=
  b.lines.length

/-- Grapheme count of the line at a given index, `0` past the last line
(spec section 3: grapheme index clamped to `[0, line.grapheme_count()]`,
`0` when the line index equals `height()`). -/
def Buffer.countAt (b : Buffer) (line_idx : Nat) : Nat :=
  match b.lines.get? line_idx with
  | some l => l.grapheme_count
  | none => 0

/-- Modelled from the spec: whether the query's grapheme contents occur as
a contiguous run starting at the given location (plain substring match
over a line's content, section 4.2). -/
def Buffer.matchesAt (b : Buffer) (q : Line) (loc : Location) : Bool :=
  match b.lines.get? loc.line_idx with
  | some l =>
      (q.graphemes.map Grapheme.content).isPrefixOf
        ((l.graphemes.drop loc.grapheme_idx).map Grapheme.content)
  | none => false

/-- All candidate match start positions of the document, in increasing
`(line_idx, grapheme_idx)` order. -/
def Buffer.positions (b : Buffer) : List Location :=
  (List.range b.lines.length).flatMap (fun li =>
    (List.range (b.countAt li)).map (fun gi => ⟨li, gi⟩))

/-- Strict lexicographic order on locations, the scan order of the search
engine (spec section 4.2: increasing `(line_idx, byte_offset)` order). -/
def Location.lexLt (a b : Location) : Bool :=
  decide (a.line_idx < b.line_idx ∨
    (a.line_idx = b.line_idx ∧ a.grapheme_idx < b.grapheme_idx))

/-- Modelled from the spec: `Buffer::search_forward` (section 4.2): first
occurrence of the query scanning from `start` in increasing order,
wrapping to the document start; `none` when the query is empty or occurs
nowhere. -/
def Buffer.search_forward (b : Buffer) (q : Line) (start : Location) :
    Option Location :=
  if q.is_empty then none
  else
    let ps := b.positions
    let later := ps.filter (fun p => !Location.lexLt p start)
    let earlier := ps.filter (fun p => Location.lexLt p start)
    (later ++ earlier).find? (fun p => b.matchesAt q p)

/-- Modelled from the spec: `Buffer::search_backward` (section 4.2):
symmetric, scanning in decreasing order with wraparound to the document
end. -/
def Buffer.search_backward (b : Buffer) (q : Line) (start : Location) :
    Option Location :=
  if q.is_empty then none
  else
    let ps := b.positions
    let upto := (ps.filter (fun p => !Location.lexLt start p)).reverse
    let later := (ps.filter (fun p => Location.lexLt start p)).reverse
    (upto ++ later).find? (fun p => b.matchesAt q p)

/-- The query occurs somewhere in the document. -/
def Buffer.occurs (b : Buffer) (q : Line) : Bool :=
  b.positions.any (fun p => b.matchesAt q p)

/-- Modelled from the spec: `Line::remove` (section 4.1): removes exactly
the cluster at the index; no-op when the index is out of range. -/
def Line.remove (l : Line) (grapheme_idx : Nat) : Line :=
  ⟨l.graphemes.take grapheme_idx ++ l.graphemes.drop (grapheme_idx + 1)⟩

/-- Modelled from the spec: `Buffer::delete` (section 4.2): remove the
grapheme at the location, or merge the following line when the location
is at or past end-of-line; no-op at true end-of-document. -/
def Buffer.delete (b : Buffer) (loc : Location) : Buffer :=
  match b.lines.get? loc.line_idx with
  | none => b
  | some l =>
      if loc.grapheme_idx < l.grapheme_count then
        ⟨b.lines.set loc.line_idx (l.remove loc.grapheme_idx), true⟩
      else
        match b.lines.get? (loc.line_idx + 1) with
        | some nextLine =>
            ⟨b.lines.take loc.line_idx ++ [⟨l.graphemes ++ nextLine.graphemes⟩]
              ++ b.lines.drop (loc.line_idx + 2), true⟩
        | none => b

/-- `SearchDirection` (file searchdirection.rs missing; spec section 4.2
has a forward and a backward engine, forward the default). -/
inductive SearchDirection where
  | Forward
  | Backward
deriving DecidableEq, Repr

/-- Modelled from the spec: `SearchInfo` (file searchinfo.rs missing;
spec section 3, ViewportState: the active search context holds the query
text and the pre-search location/scroll offset to restore). -/
structure SearchInfo where
  prev_location : Location
  prev_scroll_offset : Position
  query : Option Line
deriving DecidableEq, Repr

/-- The `View` struct, translated from src/src/editor/uicomponents/view/mod.rs. -/
structure View where
  buffer : Buffer
  needs_redraw : Bool
  size : Size
  text_location : Location
  scroll_offset : Position
  search_info : Option SearchInfo
deriving DecidableEq, Repr

/-- `UIComponent::set_needs_redraw` as implemented for `View`. -/
def View.set_needs_redraw (v : View) (value : Bool) : View :=
  { v with needs_redraw := value }

/-- `View::enter_search`. -/
def View.enter_search (v : View) : View :=
  { v with search_info := some ⟨v.text_location, v.scroll_offset, none⟩ }

/-- `View::exit_search`. -/
def View.exit_search (v : View) : View :=
  ({ v with search_info := none }).set_needs_redraw true

/-- `View::text_location_to_position`. -/
def View.text_location_to_position (v : View) : Position :=
  let row := v.text_location.line_idx
  let col := match v.buffer.lines.get? row with
    | some line => line.width_until v.text_location.grapheme_idx
    | none => 0
  ⟨row, col⟩

/-- `View::scroll_vertically`. -/
def View.scroll_vertically (v : View) (target : Nat) : View :=
  let height := v.size.height
  if target < v.scroll_offset.row then
    ({ v with scroll_offset := { v.scroll_offset with row := target } }).set_needs_redraw true
  else if v.scroll_offset.row + height ≤ target then
    ({ v with scroll_offset :=
        { v.scroll_offset with row := target - height + 1 } }).set_needs_redraw true
  else v

/-- `View::scroll_horizontally`. -/
def View.scroll_horizontally (v : View) (target : Nat) : View :=
  let width := v.size.width
  if target < v.scroll_offset.col then
    ({ v with scroll_offset := { v.scroll_offset with col := target } }).set_needs_redraw true
  else if v.scroll_offset.col + width ≤ target then
    ({ v with scroll_offset :=
        { v.scroll_offset with col := target - width + 1 } }).set_needs_redraw true
  else v

/-- `View::scroll_text_location_into_view`. -/
def View.scroll_text_location_into_view (v : View) : View :=
  let p := v.text_location_to_position
  (v.scroll_vertically p.row).scroll_horizontally p.col

/-- `View::center_text_location`; `div_ceil 2` is `(· + 1) / 2`. -/
def View.center_text_location (v : View) : View :=
  let height := v.size.height
  let width := v.size.width
  let p := v.text_location_to_position
  ({ v with scroll_offset :=
      ⟨p.row - (height + 1) / 2, p.col - (width + 1) / 2⟩ }).set_needs_redraw true

/-- `View::caret_position`. -/
def View.caret_position (v : View) : Position :=
  v.text_location_to_position.saturating_sub v.scroll_offset

/-- `View::get_search_query` (the debug assertion is not a release-mode
effect and is not modelled). -/
def View.get_search_query (v : View) : Option Line :=
  v.search_info.bind (fun si => si.query)

/-- `View::search_in_direction`. -/
def View.search_in_direction (v : View) (start : Location)
    (direction : SearchDirection) : View :=
  let found := v.get_search_query.bind (fun q =>
    if q.is_empty then none
    else if direction = SearchDirection.Forward then
      v.buffer.search_forward q start
    else
      v.buffer.search_backward q start)
  let v' := match found with
    | some loc => ({ v with text_location := loc }).center_text_location
    | none => v
  v'.set_needs_redraw true

/-- `View::search`. -/
def View.search (v : View) (query : String) : View :=
  let v' := match v.search_info with
    | some si =>
        { v with search_info := some { si with query := some (Line.fromString query) } }
    | none => v
  v'.search_in_direction v'.text_location SearchDirection.Forward

/-- `View::search_next`. -/
def View.search_next (v : View) : View :=
  let step_right := match v.get_search_query with
    | none => 1
    | some q => min q.grapheme_count 1
  v.search_in_direction
    ⟨v.text_location.line_idx, v.text_location.grapheme_idx + step_right⟩
    SearchDirection.Forward

/-- `View::search_prev`. -/
def View.search_prev (v : View) : View :=
  v.search_in_direction v.text_location SearchDirection.Backward

/-- `View::dismiss_search`. -/
def View.dismiss_search (v : View) : View :=
  let v' := match v.search_info with
    | some si =>
        ({ v with
            text_location := si.prev_location
            scroll_offset := si.prev_scroll_offset }).scroll_text_location_into_view
    | none => v
  ({ v' with search_info := none }).set_needs_redraw true

/-- `View::snap_to_valid_grapheme`. -/
def View.snap_to_valid_grapheme (v : View) : View :=
  { v with text_location := { v.text_location with grapheme_idx :=
      (match v.buffer.lines.get? v.text_location.line_idx with
      | some line => min line.grapheme_count v.text_location.grapheme_idx
      | none => 0) } }

/-- `View::snap_to_valid_line`. -/
def View.snap_to_valid_line (v : View) : View :=
  { v with text_location :=
      { v.text_location with line_idx := min v.text_location.line_idx v.buffer.height } }

/-- `View::move_up`. -/
def View.move_up (v : View) (step : Nat) : View :=
  ({ v with text_location :=
      { v.text_location with line_idx := v.text_location.line_idx - step }
   }).snap_to_valid_grapheme

/-- `View::move_down`. -/
def View.move_down (v : View) (step : Nat) : View :=
  (({ v with text_location :=
      { v.text_location with line_idx := v.text_location.line_idx + step }
   }).snap_to_valid_grapheme).snap_to_valid_line

/-- `View::move_to_start_of_line`. -/
def View.move_to_start_of_line (v : View) : View :=
  { v with text_location := { v.text_location with grapheme_idx := 0 } }

/-- `View::move_to_end_of_line`. -/
def View.move_to_end_of_line (v : View) : View :=
  { v with text_location := { v.text_location with grapheme_idx :=
      (match v.buffer.lines.get? v.text_location.line_idx with
      | some line => line.grapheme_count
      | none => 0) } }

/-- `View::move_right`. -/
def View.move_right (v : View) : View :=
  let line_width := match v.buffer.lines.get? v.text_location.line_idx with
    | some line => line.grapheme_count
    | none => 0
  if v.text_location.grapheme_idx < line_width then
    { v with text_location :=
        { v.text_location with grapheme_idx := v.text_location.grapheme_idx + 1 } }
  else
    (v.move_to_start_of_line).move_down 1

/-- `View::move_left`. -/
def View.move_left (v : View) : View :=
  if 0 < v.text_location.grapheme_idx then
    { v with text_location :=
        { v.text_location with grapheme_idx := v.text_location.grapheme_idx - 1 } }
  else if 0 < v.text_location.line_idx then
    (v.move_up 1).move_to_end_of_line
  else v

/-- `View::delete`. -/
def View.delete (v : View) : View :=
  ({ v with buffer := v.buffer.delete v.text_location }).set_needs_redraw true

/-- `View::delete_backward`. -/
def View.delete_backward (v : View) : View :=
  if v.text_location.line_idx ≠ 0 ∨ v.text_location.grapheme_idx ≠ 0 then
    (v.move_left).delete
  else v

/-- `UIComponent::set_size` as implemented for `View`. -/
def View.set_size (v : View) (size : Size) : View :=
  ({ v with size := size }).scroll_text_location_into_view

/-- `UIComponent::resize` (default method): `set_size` then mark for
redraw. -/
def View.resize (v : View) (size : Size) : View :=
  (v.set_size size).set_needs_redraw true

/-- `PromptType` from src/src/editor.rs. -/
inductive PromptType where
  | Save
  | Find
  | NoPrompt
deriving DecidableEq, Repr

/-- `QUIT_TIMES` from src/src/editor/prelude/mod.rs. -/
def QUIT_TIMES : Nat := 3

/-- The quit-relevant projection of the `Editor` struct of
src/src/editor.rs: the fields of `Editor` that the quit-confirmation
logic of `process_command` reads or writes (`quit_times`, `should_quit`,
`prompt_type`), together with the two view facts it consults:
`is_modified` (`view.get_status().is_modified`, i.e. the buffer's dirty
flag) and `is_file_loaded` (`view.is_file_loaded()`).  The remaining
fields of `Editor` (view, bars, title, sizes) are neither read nor
written by that logic. -/
structure EditorQ where
  is_modified : Bool
  is_file_loaded : Bool
  prompt_type : PromptType
  quit_times : Nat
  should_quit : Bool
deriving DecidableEq, Repr

/-- `Editor::handle_quit`. -/
def EditorQ.handle_quit (e : EditorQ) : EditorQ :=
  if !e.is_modified || e.quit_times + 1 == QUIT_TIMES then
    { e with should_quit := true }
  else if e.is_modified then
    { e with quit_times := e.quit_times + 1 }
  else e

/-- `Editor::reset_quit_times`. -/
def EditorQ.reset_quit_times (e : EditorQ) : EditorQ :=
  if 0 < e.quit_times then { e with quit_times := 0 } else e

/-- `Editor::dismiss_prompt` (quit-relevant effect: with no active prompt
it calls `handle_quit`; it always leaves `prompt_type` cleared; the
command-bar and redraw-flag effects touch no `EditorQ` field). -/
def EditorQ.dismiss_prompt (e : EditorQ) : EditorQ :=
  let e' := match e.prompt_type with
    | PromptType.Find => e
    | PromptType.Save => e
    | PromptType.NoPrompt => e.handle_quit
  { e' with prompt_type := PromptType.NoPrompt }

/-- `Editor::show_prompt` (effect on `EditorQ`: records the prompt type;
the early return leaves it unchanged). -/
def EditorQ.show_prompt (e : EditorQ) (p : PromptType) : EditorQ :=
  match p with
  | PromptType.Save => { e with prompt_type := PromptType.Save }
  | PromptType.Find => { e with prompt_type := PromptType.Find }
  | PromptType.NoPrompt => e

/-- `Editor::handle_save` (quit-relevant effect: opens the Save prompt
when no file is loaded; a successful save clears the dirty flag but never
touches `quit_times`, `should_quit` or `prompt_type`, so `is_modified` is
left unchanged in this projection and theorems about the quit fields are
unaffected). -/
def EditorQ.handle_save (e : EditorQ) : EditorQ :=
  if e.is_file_loaded then e else e.show_prompt PromptType.Save

/-- `Editor::handle_enter_press` (quit-relevant effect: clears any active
prompt; inserting a newline touches no `EditorQ` field). -/
def EditorQ.handle_enter_press (e : EditorQ) : EditorQ :=
  if e.prompt_type ≠ PromptType.NoPrompt then
    { e with prompt_type := PromptType.NoPrompt }
  else e

/-- `Editor::process_command`, projected to `EditorQ`: the first match
runs `handle_quit` for "quit" and `reset_quit_times` for everything else;
of the second match only the "save", "find", "dismiss" and
"insert_newline" arms touch an `EditorQ` field (every other arm only
drives the view or the command bar). -/
def EditorQ.process_command (e : EditorQ) (command : String) : EditorQ :=
  let e1 := if command = "quit" then e.handle_quit else e.reset_quit_times
  if command = "save" then e1.handle_save
  else if command = "find" then e1.show_prompt PromptType.Find
  else if command = "dismiss" then e1.dismiss_prompt
  else if command = "insert_newline" then e1.handle_enter_press
  else e1

/-! ## Scrolling lemmas -/

/-- `scroll_vertically` touches only `scroll_offset.row` and the redraw
flag. -/
theorem View.scroll_vertically_frame (v : View) (t : Nat) :
    (v.scroll_vertically t).buffer = v.buffer ∧
    (v.scroll_vertically t).size = v.size ∧
    (v.scroll_vertically t).text_location = v.text_location ∧
    (v.scroll_vertically t).scroll_offset.col = v.scroll_offset.col ∧
    (v.scroll_vertically t).search_info = v.search_info := by
  unfold View.scroll_vertically View.set_needs_redraw
  by_cases h1 : t < v.scroll_offset.row
  · simp [h1]
  · by_cases h2 : v.scroll_offset.row + v.size.height ≤ t <;> simp [h1, h2]

/-- `scroll_horizontally` touches only `scroll_offset.col` and the redraw
flag. -/
theorem View.scroll_horizontally_frame (v : View) (t : Nat) :
    (v.scroll_horizontally t).buffer = v.buffer ∧
    (v.scroll_horizontally t).size = v.size ∧
    (v.scroll_horizontally t).text_location = v.text_location ∧
    (v.scroll_horizontally t).scroll_offset.row = v.scroll_offset.row ∧
    (v.scroll_horizontally t).search_info = v.search_info := by
  unfold View.scroll_horizontally View.set_needs_redraw
  by_cases h1 : t < v.scroll_offset.col
  · simp [h1]
  · by_cases h2 : v.scroll_offset.col + v.size.width ≤ t <;> simp [h1, h2]

/-- After `scroll_vertically t` the target row is inside the vertical
window (the viewport height being positive). -/
theorem View.scroll_vertically_window (v : View) (t : Nat)
    (hh : 0 < v.size.height) :
    (v.scroll_vertically t).scroll_offset.row ≤ t ∧
    t < (v.scroll_vertically t).scroll_offset.row + v.size.height := by
  unfold View.scroll_vertically View.set_needs_redraw
  by_cases h1 : t < v.scroll_offset.row
  · simp [h1]; omega
  · by_cases h2 : v.scroll_offset.row + v.size.height ≤ t <;> simp [h1, h2] <;> omega

/-- `scroll_vertically` is the identity when the target row is already
inside the vertical window. -/
theorem View.scroll_vertically_of_visible (v : View) (t : Nat)
    (h1 : v.scroll_offset.row ≤ t) (h2 : t < v.scroll_offset.row + v.size.height) :
    v.scroll_vertically t = v := by
  unfold View.scroll_vertically View.set_needs_redraw
  rw [if_neg (by omega), if_neg (by omega)]

/-- After `scroll_horizontally t` the target column is inside the
horizontal window (the viewport width being positive). -/
theorem View.scroll_horizontally_window (v : View) (t : Nat)
    (hw : 0 < v.size.width) :
    (v.scroll_horizontally t).scroll_offset.col ≤ t ∧
    t < (v.scroll_horizontally t).scroll_offset.col + v.size.width := by
  unfold View.scroll_horizontally View.set_needs_redraw
  by_cases h1 : t < v.scroll_offset.col
  · simp [h1]; omega
  · by_cases h2 : v.scroll_offset.col + v.size.width ≤ t <;> simp [h1, h2] <;> omega

/-- `scroll_horizontally` is the identity when the target column is
already inside the horizontal window. -/
theorem View.scroll_horizontally_of_visible (v : View) (t : Nat)
    (h1 : v.scroll_offset.col ≤ t) (h2 : t < v.scroll_offset.col + v.size.width) :
    v.scroll_horizontally t = v := by
  unfold View.scroll_horizontally View.set_needs_redraw
  rw [if_neg (by omega), if_neg (by omega)]

/-- `scroll_text_location_into_view` changes only the scroll offset and
the redraw flag. -/
theorem View.scroll_text_location_into_view_frame (v : View) :
    (v.scroll_text_location_into_view).buffer = v.buffer ∧
    (v.scroll_text_location_into_view).size = v.size ∧
    (v.scroll_text_location_into_view).text_location = v.text_location ∧
    (v.scroll_text_location_into_view).search_info = v.search_info := by
  unfold View.scroll_text_location_into_view
  have h1 := View.scroll_vertically_frame v v.text_location_to_position.row
  have h2 := View.scroll_horizontally_frame (v.scroll_vertically v.text_location_to_position.row)
    v.text_location_to_position.col
  exact ⟨h2.1.trans h1.1, h2.2.1.trans h1.2.1, h2.2.2.1.trans h1.2.2.1,
    h2.2.2.2.2.trans h1.2.2.2.2⟩

/-- `text_location_to_position` depends only on the buffer and the text
location. -/
theorem View.text_location_to_position_congr (v w : View)
    (hb : w.buffer = v.buffer) (hl : w.text_location = v.text_location) :
    w.text_location_to_position = v.text_location_to_position := by
  unfold View.text_location_to_position
  rw [hb, hl]

/-- After `scroll_text_location_into_view`, the cursor's display position
lies inside the visible window spanned by the new scroll offset. -/
theorem View.scroll_text_location_into_view_window (v : View)
    (hh : 0 < v.size.height) (hw : 0 < v.size.width) :
    (v.scroll_text_location_into_view).scroll_offset.row ≤ v.text_location_to_position.row ∧
    v.text_location_to_position.row <
      (v.scroll_text_location_into_view).scroll_offset.row + v.size.height ∧
    (v.scroll_text_location_into_view).scroll_offset.col ≤ v.text_location_to_position.col ∧
    v.text_location_to_position.col <
      (v.scroll_text_location_into_view).scroll_offset.col + v.size.width := by
  unfold View.scroll_text_location_into_view
  have hvf := View.scroll_vertically_frame v v.text_location_to_position.row
  have hv := View.scroll_vertically_window v v.text_location_to_position.row hh
  have hhf := View.scroll_horizontally_frame
    (v.scroll_vertically v.text_location_to_position.row) v.text_location_to_position.col
  have hhw := View.scroll_horizontally_window
    (v.scroll_vertically v.text_location_to_position.row) v.text_location_to_position.col
    (by rw [hvf.2.1]; exact hw)
  refine ⟨?_, ?_, ?_, ?_⟩
  · rw [hhf.2.2.2.1]; exact hv.1
  · rw [hhf.2.2.2.1]; exact hv.2
  · exact hhw.1
  · rw [hvf.2.1] at hhw; exact hhw.2

/-- `scroll_text_location_into_view` is the identity when the cursor's
display position is already fully visible. -/
theorem View.scroll_text_location_into_view_of_visible (v : View)
    (h1 : v.scroll_offset.row ≤ v.text_location_to_position.row)
    (h2 : v.text_location_to_position.row < v.scroll_offset.row + v.size.height)
    (h3 : v.scroll_offset.col ≤ v.text_location_to_position.col)
    (h4 : v.text_location_to_position.col < v.scroll_offset.col + v.size.width) :
    v.scroll_text_location_into_view = v := by
  show (v.scroll_vertically v.text_location_to_position.row).scroll_horizontally
    v.text_location_to_position.col = v
  rw [View.scroll_vertically_of_visible v _ h1 h2,
    View.scroll_horizontally_of_visible v _ h3 h4]

/-- C1: after the scroll recomputation that precedes every redraw (run by
`handle_view_updates` after cursor moves and by `View::resize` at the top
of every `refresh_screen`, hence before any render that could be affected
by an edit, a search relocation or a resize), `caret_position()` is
non-negative (`Nat`-valued by construction) and lies strictly inside the
visible window `[0, height) x [0, width)`. -/
theorem View.caret_position_in_window (v : View)
    (hh : 0 < v.size.height) (hw : 0 < v.size.width) :
    (v.scroll_text_location_into_view).caret_position.row < v.size.height ∧
    (v.scroll_text_location_into_view).caret_position.col < v.size.width := by
  have hs := View.scroll_text_location_into_view_window v hh hw
  have hf := View.scroll_text_location_into_view_frame v
  have hp : (v.scroll_text_location_into_view).text_location_to_position =
      v.text_location_to_position :=
    View.text_location_to_position_congr v _ hf.1 hf.2.2.1
  unfold View.caret_position Position.saturating_sub
  rw [hp]
  refine ⟨?_, ?_⟩ <;> simp <;> omega

/-- Witness state for C1: two lines, cursor past the window. -/
def exView1 : View :=
  { buffer := ⟨[⟨[⟨'a', 1⟩, ⟨'b', 2⟩]⟩, ⟨[⟨'c', 1⟩]⟩], false⟩
    needs_redraw := false
    size := ⟨1, 2⟩
    text_location := ⟨1, 1⟩
    scroll_offset := ⟨0, 0⟩
    search_info := none }

/-- Witness for C1 at `exView1`. -/
theorem View.caret_position_in_window_witness :
    0 < exView1.size.height ∧ 0 < exView1.size.width ∧
    ((exView1.scroll_text_location_into_view).caret_position.row < exView1.size.height ∧
     (exView1.scroll_text_location_into_view).caret_position.col < exView1.size.width) :=
  ⟨by decide, by decide, View.caret_position_in_window exView1 (by decide) (by decide)⟩

/-- C2: `scroll_text_location_into_view` changes a scroll-offset
component only if the cursor's display position is outside the window on
that axis, and afterwards the display position lies inside the window on
both axes. -/
theorem View.scroll_text_location_into_view_minimal (v : View)
    (hh : 0 < v.size.height) (hw : 0 < v.size.width) :
    ((v.scroll_offset.row ≤ v.text_location_to_position.row ∧
      v.text_location_to_position.row < v.scroll_offset.row + v.size.height) →
      (v.scroll_text_location_into_view).scroll_offset.row = v.scroll_offset.row) ∧
    ((v.scroll_offset.col ≤ v.text_location_to_position.col ∧
      v.text_location_to_position.col < v.scroll_offset.col + v.size.width) →
      (v.scroll_text_location_into_view).scroll_offset.col = v.scroll_offset.col) ∧
    ((v.scroll_text_location_into_view).scroll_offset.row ≤ v.text_location_to_position.row ∧
     v.text_location_to_position.row <
       (v.scroll_text_location_into_view).scroll_offset.row + v.size.height) ∧
    ((v.scroll_text_location_into_view).scroll_offset.col ≤ v.text_location_to_position.col ∧
     v.text_location_to_position.col <
       (v.scroll_text_location_into_view).scroll_offset.col + v.size.width) := by
  have hs := View.scroll_text_location_into_view_window v hh hw
  refine ⟨?_, ?_, ⟨hs.1, hs.2.1⟩, ⟨hs.2.2.1, hs.2.2.2⟩⟩
  · intro h
    show ((v.scroll_vertically v.text_location_to_position.row).scroll_horizontally
      v.text_location_to_position.col).scroll_offset.row = v.scroll_offset.row
    rw [View.scroll_vertically_of_visible v _ h.1 h.2]
    exact (View.scroll_horizontally_frame v _).2.2.2.1
  · intro h
    show ((v.scroll_vertically v.text_location_to_position.row).scroll_horizontally
      v.text_location_to_position.col).scroll_offset.col = v.scroll_offset.col
    have hvf := View.scroll_vertically_frame v v.text_location_to_position.row
    have := View.scroll_horizontally_of_visible
      (v.scroll_vertically v.text_location_to_position.row) v.text_location_to_position.col
      (by rw [hvf.2.2.2.1]; exact h.1) (by rw [hvf.2.2.2.1, hvf.2.1]; exact h.2)
    rw [this, hvf.2.2.2.1]

/-- Witness for C2 at `exView1`. -/
theorem View.scroll_text_location_into_view_minimal_witness :
    0 < exView1.size.height ∧ 0 < exView1.size.width ∧
    ((exView1.scroll_text_location_into_view).scroll_offset.row ≤
        exView1.text_location_to_position.row ∧
      exView1.text_location_to_position.row <
        (exView1.scroll_text_location_into_view).scroll_offset.row + exView1.size.height) :=
  ⟨by decide, by decide,
    (View.scroll_text_location_into_view_minimal exView1 (by decide) (by decide)).2.2.1⟩

/-- `center_text_location` changes only the scroll offset and the redraw
flag. -/
theorem View.center_text_location_frame (v : View) :
    (v.center_text_location).buffer = v.buffer ∧
    (v.center_text_location).size = v.size ∧
    (v.center_text_location).text_location = v.text_location ∧
    (v.center_text_location).search_info = v.search_info := by
  unfold View.center_text_location View.set_needs_redraw
  exact ⟨rfl, rfl, rfl, rfl⟩

/-- Counterexample state for C3: cursor at the document origin in a
2 x 2 window. -/
def exView3 : View :=
  { buffer := ⟨[⟨[⟨'a', 1⟩]⟩], false⟩
    needs_redraw := false
    size := ⟨2, 2⟩
    text_location := ⟨0, 0⟩
    scroll_offset := ⟨0, 0⟩
    search_info := none }

/-- Counterexample for C3: at `exView3` the offset subtraction saturates
at zero, so after `center_text_location` the caret sits at `(0, 0)`, not
at the midpoint `(ceil(2/2), ceil(2/2)) = (1, 1)`. -/
theorem View.center_text_location_not_midpoint :
    ¬ ((exView3.center_text_location).caret_position =
        ⟨(exView3.size.height + 1) / 2, (exView3.size.width + 1) / 2⟩) := by
  decide

/-- C3 amended: after `center_text_location` the caret (display position
minus the new offset) equals the midpoint `(ceil(h/2), ceil(w/2))`
clamped by the cursor's display position: the row/col offsets saturate at
`0`, so near the document origin the caret equals the display position
itself instead of the midpoint. -/
theorem View.center_text_location_caret (v : View) :
    (v.center_text_location).caret_position =
      ⟨min v.text_location_to_position.row ((v.size.height + 1) / 2),
       min v.text_location_to_position.col ((v.size.width + 1) / 2)⟩ := by
  have hf := View.center_text_location_frame v
  have hp : (v.center_text_location).text_location_to_position =
      v.text_location_to_position :=
    View.text_location_to_position_congr v _ hf.1 hf.2.2.1
  unfold View.caret_position Position.saturating_sub
  rw [hp]
  have hoff : (v.center_text_location).scroll_offset =
      ⟨v.text_location_to_position.row - (v.size.height + 1) / 2,
       v.text_location_to_position.col - (v.size.width + 1) / 2⟩ := by
    unfold View.center_text_location View.set_needs_redraw
    rfl
  rw [hoff]
  have h1 : v.text_location_to_position.row -
      (v.text_location_to_position.row - (v.size.height + 1) / 2) =
      min v.text_location_to_position.row ((v.size.height + 1) / 2) := by omega
  have h2 : v.text_location_to_position.col -
      (v.text_location_to_position.col - (v.size.width + 1) / 2) =
      min v.text_location_to_position.col ((v.size.width + 1) / 2) := by omega
  exact congrArg₂ Position.mk h1 h2

/-! ## Search lemmas -/

/-- A forward search returns `none` when the query is empty or occurs
nowhere in the document. -/
theorem Buffer.search_forward_eq_none (b : Buffer) (q : Line) (start : Location)
    (h : q.is_empty = true ∨ b.occurs q = false) :
    b.search_forward q start = none := by
  unfold Buffer.search_forward
  by_cases he : q.is_empty
  · simp [he]
  · rcases h with h | h
    · exact absurd h he
    · rw [if_neg he]
      apply List.find?_eq_none.2
      intro x hx
      have hxp : x ∈ b.positions := by
        rcases List.mem_append.1 hx with hx' | hx'
        · exact List.mem_of_mem_filter hx'
        · exact List.mem_of_mem_filter hx'
      have := (List.any_eq_false.1 h) x hxp
      simpa using this

/-- A backward search returns `none` when the query is empty or occurs
nowhere in the document. -/
theorem Buffer.search_backward_eq_none (b : Buffer) (q : Line) (start : Location)
    (h : q.is_empty = true ∨ b.occurs q = false) :
    b.search_backward q start = none := by
  unfold Buffer.search_backward
  by_cases he : q.is_empty
  · simp [he]
  · rcases h with h | h
    · exact absurd h he
    · rw [if_neg he]
      apply List.find?_eq_none.2
      intro x hx
      have hxp : x ∈ b.positions := by
        rcases List.mem_append.1 hx with hx' | hx'
        · exact List.mem_of_mem_filter (List.mem_reverse.1 hx')
        · exact List.mem_of_mem_filter (List.mem_reverse.1 hx')
      have := (List.any_eq_false.1 h) x hxp
      simpa using this

/-- When the stored query (if any) is empty or occurs nowhere,
`search_in_direction` only marks the view for redraw. -/
theorem View.search_in_direction_no_match (v : View) (start : Location)
    (dir : SearchDirection)
    (h : ∀ q, v.get_search_query = some q →
      q.is_empty = true ∨ v.buffer.occurs q = false) :
    v.search_in_direction start dir = v.set_needs_redraw true := by
  unfold View.search_in_direction
  cases hq : v.get_search_query with
  | none => rfl
  | some q =>
      have hn := h q hq
      by_cases he : q.is_empty
      · simp [hq, he]
      · rcases hn with hn | hn
        · exact absurd hn he
        · cases dir with
          | Forward =>
              simp [hq, he, Buffer.search_forward_eq_none v.buffer q start (Or.inr hn)]
          | Backward =>
              simp [hq, he, Buffer.search_backward_eq_none v.buffer q start (Or.inr hn)]

/-- C4: in search mode, when the typed query is empty or occurs nowhere
and likewise the stored query, `search`, `search_next` and `search_prev`
leave `text_location` and `scroll_offset` unchanged (no relocation). -/
theorem View.search_no_match_keeps_location (v : View) (si : SearchInfo)
    (q : String) (ql : Line)
    (hsi : v.search_info = some si)
    (hq : (Line.fromString q).is_empty = true ∨
      v.buffer.occurs (Line.fromString q) = false)
    (hql : si.query = some ql)
    (hqlm : ql.is_empty = true ∨ v.buffer.occurs ql = false) :
    ((v.search q).text_location = v.text_location ∧
     (v.search q).scroll_offset = v.scroll_offset) ∧
    ((v.search_next).text_location = v.text_location ∧
     (v.search_next).scroll_offset = v.scroll_offset) ∧
    ((v.search_prev).text_location = v.text_location ∧
     (v.search_prev).scroll_offset = v.scroll_offset) := by
  have hgq : v.get_search_query = some ql := by
    unfold View.get_search_query
    rw [hsi]
    simpa using hql
  refine ⟨?_, ?_, ?_⟩
  · unfold View.search
    rw [hsi]
    set v' : View :=
      { v with search_info := some { si with query := some (Line.fromString q) } } with hv'
    have hgq' : v'.get_search_query = some (Line.fromString q) := by
      unfold View.get_search_query
      rw [hv']
      rfl
    have := View.search_in_direction_no_match v' v'.text_location SearchDirection.Forward
      (by intro x hx; rw [hgq'] at hx; cases hx; exact hq)
    rw [this]
    exact ⟨rfl, rfl⟩
  · unfold View.search_next
    rw [View.search_in_direction_no_match v _ _
      (by intro x hx; rw [hgq] at hx; cases hx; exact hqlm)]
    exact ⟨rfl, rfl⟩
  · unfold View.search_prev
    rw [View.search_in_direction_no_match v _ _
      (by intro x hx; rw [hgq] at hx; cases hx; exact hqlm)]
    exact ⟨rfl, rfl⟩

/-- Witness state for C4: one line "ab", stored query "zz". -/
def exView4 : View :=
  { buffer := ⟨[⟨[⟨'a', 1⟩, ⟨'b', 1⟩]⟩], false⟩
    needs_redraw := false
    size := ⟨2, 2⟩
    text_location := ⟨0, 1⟩
    scroll_offset := ⟨0, 0⟩
    search_info := some ⟨⟨0, 0⟩, ⟨0, 0⟩, some (Line.fromString "zz")⟩ }

/-- Witness for C4 at `exView4` with typed query "xy". -/
theorem View.search_no_match_keeps_location_witness :
    exView4.search_info = some ⟨⟨0, 0⟩, ⟨0, 0⟩, some (Line.fromString "zz")⟩ ∧
    exView4.buffer.occurs (Line.fromString "xy") = false ∧
    exView4.buffer.occurs (Line.fromString "zz") = false ∧
    (((exView4.search "xy").text_location = exView4.text_location ∧
      (exView4.search "xy").scroll_offset = exView4.scroll_offset) ∧
     ((exView4.search_next).text_location = exView4.text_location ∧
      (exView4.search_next).scroll_offset = exView4.scroll_offset) ∧
     ((exView4.search_prev).text_location = exView4.text_location ∧
      (exView4.search_prev).scroll_offset = exView4.scroll_offset)) :=
  ⟨rfl, by decide, by decide,
    View.search_no_match_keeps_location exView4 _ "xy" (Line.fromString "zz")
      rfl (Or.inr (by decide)) rfl (Or.inr (by decide))⟩

/-- C6: with a non-empty stored query, `search_next` starts the forward
search one grapheme past the current location (`min(grapheme_count, 1)`
being `1` for a non-empty query), and `search_prev` starts the backward
search exactly at the current location. -/
theorem View.search_next_prev_start (v : View) (si : SearchInfo) (ql : Line)
    (hsi : v.search_info = some si) (hql : si.query = some ql)
    (hne : ql.is_empty = false) :
    v.search_next = v.search_in_direction
      ⟨v.text_location.line_idx, v.text_location.grapheme_idx + 1⟩
      SearchDirection.Forward ∧
    v.search_prev = v.search_in_direction v.text_location
      SearchDirection.Backward := by
  constructor
  · have hgq : v.get_search_query = some ql := by
      unfold View.get_search_query
      rw [hsi]
      simpa using hql
    unfold View.search_next
    rw [hgq]
    have hone : min ql.grapheme_count 1 = 1 := by
      have : ql.grapheme_count ≠ 0 := by
        unfold Line.is_empty at hne
        unfold Line.grapheme_count
        simpa [List.isEmpty_iff] using hne
      omega
    show v.search_in_direction
      ⟨v.text_location.line_idx, v.text_location.grapheme_idx + min ql.grapheme_count 1⟩
      SearchDirection.Forward = _
    rw [hone]
  · rfl

/-- Witness state for C6: stored non-empty query "b". -/
def exView6 : View :=
  { buffer := ⟨[⟨[⟨'a', 1⟩, ⟨'b', 1⟩]⟩], false⟩
    needs_redraw := false
    size := ⟨2, 2⟩
    text_location := ⟨0, 0⟩
    scroll_offset := ⟨0, 0⟩
    search_info := some ⟨⟨0, 0⟩, ⟨0, 0⟩, some (Line.fromString "b")⟩ }

/-- Witness for C6 at `exView6`. -/
theorem View.search_next_prev_start_witness :
    exView6.search_info = some ⟨⟨0, 0⟩, ⟨0, 0⟩, some (Line.fromString "b")⟩ ∧
    (Line.fromString "b").is_empty = false ∧
    (exView6.search_next = exView6.search_in_direction
        ⟨exView6.text_location.line_idx, exView6.text_location.grapheme_idx + 1⟩
        SearchDirection.Forward ∧
     exView6.search_prev = exView6.search_in_direction exView6.text_location
        SearchDirection.Backward) :=
  ⟨rfl, by decide,
    View.search_next_prev_start exView6 _ (Line.fromString "b") rfl rfl (by decide)⟩

/-- C8: `exit_search` only discards the search context and marks the view
for redraw; buffer (contents and dirty flag), text location, scroll
offset and size are untouched. -/
theorem View.exit_search_keeps_state (v : View) :
    (v.exit_search).text_location = v.text_location ∧
    (v.exit_search).scroll_offset = v.scroll_offset ∧
    (v.exit_search).buffer = v.buffer ∧
    (v.exit_search).size = v.size ∧
    (v.exit_search).search_info = none ∧
    (v.exit_search).needs_redraw = true :=
  ⟨rfl, rfl, rfl, rfl, rfl, rfl⟩

/-- C9: `delete_backward` at the very start of the document (location
`(0, 0)`) is a no-op: buffer contents, dirty flag, text location and
scroll offset are all unchanged. -/
theorem View.delete_backward_at_origin (v : View)
    (h : v.text_location = ⟨0, 0⟩) :
    (v.delete_backward).buffer = v.buffer ∧
    (v.delete_backward).text_location = v.text_location ∧
    (v.delete_backward).scroll_offset = v.scroll_offset := by
  unfold View.delete_backward
  simp [h]

/-- Witness state for C9. -/
def exView9 : View :=
  { buffer := ⟨[⟨[⟨'a', 1⟩]⟩], true⟩
    needs_redraw := false
    size := ⟨2, 2⟩
    text_location := ⟨0, 0⟩
    scroll_offset := ⟨0, 0⟩
    search_info := none }

/-- Witness for C9 at `exView9`. -/
theorem View.delete_backward_at_origin_witness :
    exView9.text_location = ⟨0, 0⟩ ∧
    ((exView9.delete_backward).buffer = exView9.buffer ∧
     (exView9.delete_backward).text_location = exView9.text_location ∧
     (exView9.delete_backward).scroll_offset = exView9.scroll_offset) :=
  ⟨rfl, View.delete_backward_at_origin exView9 rfl⟩

/-! ## Cursor movement validity -/

/-- A text location is valid for a buffer: line index in
`[0, height()]`, grapheme index in `[0, grapheme count of that line]`
(`0` past the last line). -/
def validLoc (b : Buffer) (loc : Location) : Prop :=
  loc.line_idx ≤ b.height ∧ loc.grapheme_idx ≤ b.countAt loc.line_idx

instance (b : Buffer) (loc : Location) : Decidable (validLoc b loc) := by
  unfold validLoc
  infer_instance

/-- `snap_to_valid_grapheme` yields a valid location whenever the line
index is in range; it never changes the line index or any other field. -/
theorem View.snap_to_valid_grapheme_valid (v : View)
    (h : v.text_location.line_idx ≤ v.buffer.height) :
    validLoc v.buffer (v.snap_to_valid_grapheme).text_location ∧
    (v.snap_to_valid_grapheme).text_location.line_idx = v.text_location.line_idx ∧
    (v.snap_to_valid_grapheme).buffer = v.buffer := by
  unfold View.snap_to_valid_grapheme validLoc Buffer.countAt
  cases hget : v.buffer.lines.get? v.text_location.line_idx with
  | some l => simp [hget]; omega
  | none => simp [hget]; exact h

/-- `move_down` always lands on a valid location, from any start. -/
theorem View.move_down_valid (v : View) (step : Nat) :
    validLoc (v.move_down step).buffer (v.move_down step).text_location := by
  have hbuf : (v.move_down step).buffer = v.buffer := rfl
  have hline : (v.move_down step).text_location.line_idx =
      min (v.text_location.line_idx + step) v.buffer.lines.length := rfl
  have hg : (v.move_down step).text_location.grapheme_idx =
      (match v.buffer.lines.get? (v.text_location.line_idx + step) with
       | some l => min l.grapheme_count v.text_location.grapheme_idx
       | none => 0) := rfl
  unfold validLoc Buffer.height Buffer.countAt
  rw [hbuf, hline, hg]
  cases hget : v.buffer.lines.get? (v.text_location.line_idx + step) with
  | some l =>
      have hlt : v.text_location.line_idx + step < v.buffer.lines.length :=
        (List.get?_eq_some.1 hget).1
      have hmin : min (v.text_location.line_idx + step) v.buffer.lines.length =
          v.text_location.line_idx + step := by omega
      rw [hmin, hget]
      refine ⟨by omega, ?_⟩
      show min l.grapheme_count v.text_location.grapheme_idx ≤ l.grapheme_count
      omega
  | none =>
      have hge : v.buffer.lines.length ≤ v.text_location.line_idx + step := by
        by_cases hc : v.text_location.line_idx + step < v.buffer.lines.length
        · rw [List.get?_eq_get hc] at hget
          exact Option.noConfusion hget
        · omega
      have hmin : min (v.text_location.line_idx + step) v.buffer.lines.length =
          v.buffer.lines.length := by omega
      rw [hmin]
      refine ⟨by omega, ?_⟩
      cases hget2 : v.buffer.lines.get? v.buffer.lines.length with
      | some l2 => exact absurd ((List.get?_eq_some.1 hget2).1) (by omega)
      | none => exact Nat.le_refl 0

/-- `move_up` lands on a valid location whenever the starting line index
is in range (it only decreases the line index, then snaps the grapheme
index). -/
theorem View.move_up_valid (v : View) (step : Nat)
    (h : v.text_location.line_idx ≤ v.buffer.height) :
    validLoc (v.move_up step).buffer (v.move_up step).text_location := by
  unfold View.move_up
  have := View.snap_to_valid_grapheme_valid
    { v with text_location :=
        { v.text_location with line_idx := v.text_location.line_idx - step } }
    (by simpa using by unfold Buffer.height at h ⊢; omega)
  simpa using this.1

/-- `move_to_end_of_line` lands on a valid location whenever the starting
line index is in range. -/
theorem View.move_to_end_of_line_valid (v : View)
    (h : v.text_location.line_idx ≤ v.buffer.height) :
    validLoc (v.move_to_end_of_line).buffer (v.move_to_end_of_line).text_location := by
  unfold View.move_to_end_of_line validLoc Buffer.countAt
  cases hget : v.buffer.lines.get? v.text_location.line_idx with
  | some l => simpa [hget] using h
  | none => simpa [hget] using h

/-- `move_to_start_of_line` lands on a valid location whenever the
starting line index is in range. -/
theorem View.move_to_start_of_line_valid (v : View)
    (h : v.text_location.line_idx ≤ v.buffer.height) :
    validLoc (v.move_to_start_of_line).buffer
      (v.move_to_start_of_line).text_location := by
  unfold View.move_to_start_of_line validLoc
  exact ⟨h, Nat.zero_le _⟩

/-- `move_left` preserves validity. -/
theorem View.move_left_valid (v : View) (h : validLoc v.buffer v.text_location) :
    validLoc (v.move_left).buffer (v.move_left).text_location := by
  unfold View.move_left
  by_cases h1 : 0 < v.text_location.grapheme_idx
  · rw [if_pos h1]
    have hc := h.2
    refine ⟨h.1, ?_⟩
    show v.text_location.grapheme_idx - 1 ≤ Buffer.countAt v.buffer v.text_location.line_idx
    omega
  · rw [if_neg h1]
    by_cases h2 : 0 < v.text_location.line_idx
    · rw [if_pos h2]
      exact View.move_to_end_of_line_valid (v.move_up 1) (View.move_up_valid v 1 h.1).1
    · rw [if_neg h2]
      exact h

/-- `move_right` preserves validity. -/
theorem View.move_right_valid (v : View) (h : validLoc v.buffer v.text_location) :
    validLoc (v.move_right).buffer (v.move_right).text_location := by
  unfold View.move_right
  cases hget : v.buffer.lines.get? v.text_location.line_idx with
  | some l =>
      by_cases hlt : v.text_location.grapheme_idx < l.grapheme_count
      · simp only [hget]
        rw [if_pos hlt]
        unfold validLoc at h ⊢
        refine ⟨h.1, ?_⟩
        unfold Buffer.countAt at h ⊢
        simp only [hget] at h ⊢
        omega
      · simp only [hget]
        rw [if_neg hlt]
        exact View.move_down_valid (v.move_to_start_of_line) 1
  | none =>
      simp only [hget]
      rw [if_neg (by omega)]
      exact View.move_down_valid (v.move_to_start_of_line) 1

/-- Counterexample state for C7: a one-line buffer with the text location
already out of range (`line_idx = 5 > height() = 1`). -/
def exView7 : View :=
  { buffer := ⟨[⟨[⟨'a', 1⟩]⟩], false⟩
    needs_redraw := false
    size := ⟨2, 2⟩
    text_location := ⟨5, 0⟩
    scroll_offset := ⟨0, 0⟩
    search_info := none }

/-- Counterexample for C7: from the out-of-range start `exView7`,
`move_to_start_of_line` leaves `line_idx = 5`, outside
`[0, buffer.height()] = [0, 1]` — only `move_down` fully re-clamps the
line index, so the claim fails for already-invalid starting states. -/
theorem View.moves_not_valid_from_invalid :
    ¬ validLoc (exView7.move_to_start_of_line).buffer
      (exView7.move_to_start_of_line).text_location := by
  decide

/-- C7 amended: starting from a valid text location (line index in
`[0, height()]`, grapheme index within the line, `0` past the last
line), every cursor move operation lands on a valid text location; the
operations are total functions, so termination is by construction. -/
theorem View.moves_preserve_valid (v : View) (step : Nat)
    (h : validLoc v.buffer v.text_location) :
    validLoc (v.move_up step).buffer (v.move_up step).text_location ∧
    validLoc (v.move_down step).buffer (v.move_down step).text_location ∧
    validLoc (v.move_left).buffer (v.move_left).text_location ∧
    validLoc (v.move_right).buffer (v.move_right).text_location ∧
    validLoc (v.move_to_start_of_line).buffer
      (v.move_to_start_of_line).text_location ∧
    validLoc (v.move_to_end_of_line).buffer
      (v.move_to_end_of_line).text_location :=
  ⟨View.move_up_valid v step h.1, View.move_down_valid v step,
    View.move_left_valid v h, View.move_right_valid v h,
    View.move_to_start_of_line_valid v h.1, View.move_to_end_of_line_valid v h.1⟩

/-- Witness state for C7: a valid location inside a one-line buffer. -/
def exView7b : View :=
  { buffer := ⟨[⟨[⟨'a', 1⟩, ⟨'b', 1⟩]⟩], false⟩
    needs_redraw := false
    size := ⟨2, 2⟩
    text_location := ⟨0, 1⟩
    scroll_offset := ⟨0, 0⟩
    search_info := none }

/-- Witness for the amended C7 at `exView7b` with step 3. -/
theorem View.moves_preserve_valid_witness :
    validLoc exView7b.buffer exView7b.text_location ∧
    (validLoc (exView7b.move_up 3).buffer (exView7b.move_up 3).text_location ∧
     validLoc (exView7b.move_down 3).buffer (exView7b.move_down 3).text_location ∧
     validLoc (exView7b.move_left).buffer (exView7b.move_left).text_location ∧
     validLoc (exView7b.move_right).buffer (exView7b.move_right).text_location ∧
     validLoc (exView7b.move_to_start_of_line).buffer
       (exView7b.move_to_start_of_line).text_location ∧
     validLoc (exView7b.move_to_end_of_line).buffer
       (exView7b.move_to_end_of_line).text_location) :=
  ⟨by decide, View.moves_preserve_valid exView7b 3 (by decide)⟩

/-! ## Search-session restoration -/

/-- `search_in_direction` never touches the buffer, the size or the
search context. -/
theorem View.search_in_direction_frame (v : View) (start : Location)
    (dir : SearchDirection) :
    (v.search_in_direction start dir).buffer = v.buffer ∧
    (v.search_in_direction start dir).size = v.size ∧
    (v.search_in_direction start dir).search_info = v.search_info := by
  have main : ∀ found : Option Location,
      (((match found with
         | some loc => ({ v with text_location := loc }).center_text_location
         | none => v) : View).set_needs_redraw true).buffer = v.buffer ∧
      (((match found with
         | some loc => ({ v with text_location := loc }).center_text_location
         | none => v) : View).set_needs_redraw true).size = v.size ∧
      (((match found with
         | some loc => ({ v with text_location := loc }).center_text_location
         | none => v) : View).set_needs_redraw true).search_info = v.search_info := by
    intro found
    cases found with
    | some loc =>
        unfold View.center_text_location View.set_needs_redraw
        exact ⟨rfl, rfl, rfl⟩
    | none => exact ⟨rfl, rfl, rfl⟩
  exact main _

/-- `search` stores the new query in the search context but preserves the
snapshot fields, the buffer and the size. -/
theorem View.search_keeps_snapshot (v : View) (q : String) (si : SearchInfo)
    (h : v.search_info = some si) :
    (v.search q).buffer = v.buffer ∧
    (v.search q).size = v.size ∧
    (v.search q).search_info =
      some ⟨si.prev_location, si.prev_scroll_offset, some (Line.fromString q)⟩ := by
  unfold View.search
  rw [h]
  have hf := View.search_in_direction_frame
    { v with search_info := some { si with query := some (Line.fromString q) } }
    v.text_location SearchDirection.Forward
  exact ⟨hf.1, hf.2.1, by rw [hf.2.2]⟩

/-- `resize` preserves the buffer, the text location and the search
context. -/
theorem View.resize_frame (v : View) (sz : Size) :
    (v.resize sz).buffer = v.buffer ∧
    (v.resize sz).text_location = v.text_location ∧
    (v.resize sz).search_info = v.search_info ∧
    (v.resize sz).size = sz := by
  unfold View.resize View.set_size View.set_needs_redraw
  have hf := View.scroll_text_location_into_view_frame { v with size := sz }
  exact ⟨hf.1, hf.2.2.1, hf.2.2.2, hf.2.1⟩

/-- The operations available while the find prompt is active (the
commands `Editor::process_command` routes to the view in Find mode, plus
a terminal resize). -/
inductive SearchOp where
  | search (q : String)
  | next
  | prev
  | resize (sz : Size)

/-- Effect of one search-session operation on the view. -/
def SearchOp.apply (op : SearchOp) (v : View) : View :=
  match op with
  | SearchOp.search q => v.search q
  | SearchOp.next => v.search_next
  | SearchOp.prev => v.search_prev
  | SearchOp.resize sz => v.resize sz

/-- Left fold of search-session operations over the view. -/
def applyOps (v : View) (ops : List SearchOp) : View :=
  ops.foldl (fun s op => op.apply s) v

/-- The session invariant: the buffer and the snapshotted pre-search
location and scroll offset survive. -/
def keepsSnapshot (pl : Location) (po : Position) (B : Buffer) (s : View) : Prop :=
  s.buffer = B ∧ ∃ q, s.search_info = some ⟨pl, po, q⟩

/-- Each search-session operation preserves the session invariant. -/
theorem SearchOp.apply_keepsSnapshot (op : SearchOp) (pl : Location)
    (po : Position) (B : Buffer) (s : View) (h : keepsSnapshot pl po B s) :
    keepsSnapshot pl po B (op.apply s) := by
  obtain ⟨hb, qq, hsi⟩ := h
  cases op with
  | search q =>
      have hs := View.search_keeps_snapshot s q ⟨pl, po, qq⟩ hsi
      exact ⟨hs.1.trans hb, some (Line.fromString q), hs.2.2⟩
  | next =>
      have hf := View.search_in_direction_frame s
        ⟨s.text_location.line_idx, s.text_location.grapheme_idx +
          (match s.get_search_query with
           | none => 1
           | some q => min q.grapheme_count 1)⟩ SearchDirection.Forward
      exact ⟨hf.1.trans hb, qq, hf.2.2.trans hsi⟩
  | prev =>
      have hf := View.search_in_direction_frame s s.text_location
        SearchDirection.Backward
      exact ⟨hf.1.trans hb, qq, hf.2.2.trans hsi⟩
  | resize sz =>
      have hf := View.resize_frame s sz
      exact ⟨hf.1.trans hb, qq, (hf.2.2.1).trans hsi⟩

/-- A whole search session preserves the session invariant. -/
theorem applyOps_keepsSnapshot (ops : List SearchOp) (pl : Location)
    (po : Position) (B : Buffer) (s : View) (h : keepsSnapshot pl po B s) :
    keepsSnapshot pl po B (applyOps s ops) := by
  induction ops generalizing s with
  | nil => exact h
  | cons op rest ih =>
      exact ih (op.apply s) (SearchOp.apply_keepsSnapshot op pl po B s h)

/-- Two views equal field by field are equal. -/
theorem View.eq_of_fields (a b : View) (h1 : a.buffer = b.buffer)
    (h2 : a.needs_redraw = b.needs_redraw) (h3 : a.size = b.size)
    (h4 : a.text_location = b.text_location)
    (h5 : a.scroll_offset = b.scroll_offset)
    (h6 : a.search_info = b.search_info) : a = b := by
  cases a
  cases b
  simp_all

/-- `scroll_text_location_into_view` never reads the search context: two
views agreeing on every other field scroll to states agreeing on every
other field. -/
theorem View.scroll_into_view_congr (x y : View)
    (hb : y.buffer = x.buffer) (hn : y.needs_redraw = x.needs_redraw)
    (hs : y.size = x.size) (hl : y.text_location = x.text_location)
    (ho : y.scroll_offset = x.scroll_offset) :
    (y.scroll_text_location_into_view).buffer =
      (x.scroll_text_location_into_view).buffer ∧
    (y.scroll_text_location_into_view).needs_redraw =
      (x.scroll_text_location_into_view).needs_redraw ∧
    (y.scroll_text_location_into_view).size =
      (x.scroll_text_location_into_view).size ∧
    (y.scroll_text_location_into_view).text_location =
      (x.scroll_text_location_into_view).text_location ∧
    (y.scroll_text_location_into_view).scroll_offset =
      (x.scroll_text_location_into_view).scroll_offset := by
  cases x with
  | mk xb xnr xs xl xo xsi =>
      cases y with
      | mk yb ynr ys yl yo ysi =>
          simp only at hb hn hs hl ho
          subst hb
          subst hn
          subst hs
          subst hl
          subst ho
          unfold View.scroll_text_location_into_view View.scroll_vertically
            View.scroll_horizontally View.set_needs_redraw
            View.text_location_to_position
          dsimp only
          split_ifs <;> exact ⟨rfl, rfl, rfl, rfl, rfl⟩

/-- C5: entering search in state `v`, running any sequence of
search-session operations, then dismissing, restores the text location
exactly; the final state is the snapshot-restored state followed by a
single scroll-into-view adjustment, and the scroll offset is restored
exactly whenever the old location is still visible at the current size. -/
theorem View.dismiss_search_restores (v : View) (ops : List SearchOp) :
    ((applyOps (v.enter_search) ops).dismiss_search).text_location = v.text_location ∧
    (applyOps (v.enter_search) ops).dismiss_search =
      { ({ applyOps (v.enter_search) ops with
            text_location := v.text_location, scroll_offset := v.scroll_offset
          }).scroll_text_location_into_view with
        search_info := none, needs_redraw := true } ∧
    ((v.scroll_offset.row ≤ v.text_location_to_position.row ∧
      v.text_location_to_position.row <
        v.scroll_offset.row + (applyOps (v.enter_search) ops).size.height ∧
      v.scroll_offset.col ≤ v.text_location_to_position.col ∧
      v.text_location_to_position.col <
        v.scroll_offset.col + (applyOps (v.enter_search) ops).size.width) →
      ((applyOps (v.enter_search) ops).dismiss_search).scroll_offset =
        v.scroll_offset) := by
  have hk : keepsSnapshot v.text_location v.scroll_offset v.buffer
      (applyOps (v.enter_search) ops) :=
    applyOps_keepsSnapshot ops v.text_location v.scroll_offset v.buffer
      (v.enter_search) ⟨rfl, none, rfl⟩
  obtain ⟨hb, qq, hsi⟩ := hk
  have hmain : (applyOps (v.enter_search) ops).dismiss_search =
      { ({ applyOps (v.enter_search) ops with
            text_location := v.text_location, scroll_offset := v.scroll_offset
          }).scroll_text_location_into_view with
        search_info := none, needs_redraw := true } := by
    unfold View.dismiss_search View.set_needs_redraw
    rw [hsi]
    have hcg := View.scroll_into_view_congr
      { applyOps v.enter_search ops with
          text_location := v.text_location, scroll_offset := v.scroll_offset }
      { applyOps v.enter_search ops with
          text_location := v.text_location, scroll_offset := v.scroll_offset,
          search_info := some ⟨v.text_location, v.scroll_offset, qq⟩ }
      rfl rfl rfl rfl rfl
    apply View.eq_of_fields
    · exact hcg.1
    · rfl
    · exact hcg.2.2.1
    · exact hcg.2.2.2.1
    · exact hcg.2.2.2.2
    · rfl
  have hfr := View.scroll_text_location_into_view_frame
    { applyOps (v.enter_search) ops with
      text_location := v.text_location, scroll_offset := v.scroll_offset }
  refine ⟨?_, hmain, ?_⟩
  · rw [hmain]
    show ({ applyOps (v.enter_search) ops with
        text_location := v.text_location, scroll_offset := v.scroll_offset
      }).scroll_text_location_into_view.text_location = v.text_location
    rw [hfr.2.2.1]
  · intro hv
    have hpos : ({ applyOps (v.enter_search) ops with
        text_location := v.text_location, scroll_offset := v.scroll_offset
      } : View).text_location_to_position = v.text_location_to_position :=
      View.text_location_to_position_congr v _ hb rfl
    have hid := View.scroll_text_location_into_view_of_visible
      { applyOps (v.enter_search) ops with
        text_location := v.text_location, scroll_offset := v.scroll_offset }
      (by rw [hpos]; exact hv.1) (by rw [hpos]; exact hv.2.1)
      (by rw [hpos]; exact hv.2.2.1) (by rw [hpos]; exact hv.2.2.2)
    rw [hmain]
    show ({ applyOps (v.enter_search) ops with
        text_location := v.text_location, scroll_offset := v.scroll_offset
      }).scroll_text_location_into_view.scroll_offset = v.scroll_offset
    rw [hid]

/-- Witness state for C5. -/
def exView5 : View :=
  { buffer := ⟨[⟨[⟨'a', 1⟩, ⟨'b', 1⟩]⟩], false⟩
    needs_redraw := false
    size := ⟨2, 2⟩
    text_location := ⟨0, 1⟩
    scroll_offset := ⟨0, 0⟩
    search_info := none }

/-- Witness for C5 at `exView5` with one intervening `search_next`. -/
theorem View.dismiss_search_restores_witness :
    ((applyOps (exView5.enter_search) [SearchOp.next]).dismiss_search).text_location =
      exView5.text_location ∧
    ((applyOps (exView5.enter_search) [SearchOp.next]).dismiss_search).scroll_offset =
      exView5.scroll_offset :=
  ⟨(View.dismiss_search_restores exView5 [SearchOp.next]).1,
   (View.dismiss_search_restores exView5 [SearchOp.next]).2.2 (by decide)⟩

/-! ## Quit confirmation -/

/-- On the "quit" command, `process_command` runs exactly `handle_quit`
(the second command match has no arm for "quit" beyond the first). -/
theorem EditorQ.process_command_quit (e : EditorQ) :
    e.process_command "quit" = e.handle_quit := rfl

/-- `reset_quit_times` zeroes the counter and touches nothing else. -/
theorem EditorQ.reset_quit_times_spec (e : EditorQ) :
    (e.reset_quit_times).quit_times = 0 ∧
    (e.reset_quit_times).should_quit = e.should_quit ∧
    (e.reset_quit_times).is_modified = e.is_modified ∧
    (e.reset_quit_times).prompt_type = e.prompt_type := by
  unfold EditorQ.reset_quit_times
  by_cases h : 0 < e.quit_times
  · simp [h]
  · simp [h]
    omega

/-- With a modified document and `should_quit` not yet set, `handle_quit`
either quits (counter at `QUIT_TIMES - 1`) or increments the counter. -/
theorem EditorQ.handle_quit_modified (e : EditorQ) (hm : e.is_modified = true)
    (hs : e.should_quit = false) :
    (e.quit_times + 1 = QUIT_TIMES → e.handle_quit = { e with should_quit := true }) ∧
    (e.quit_times + 1 ≠ QUIT_TIMES →
      e.handle_quit = { e with quit_times := e.quit_times + 1 }) := by
  unfold EditorQ.handle_quit
  constructor
  · intro h
    simp [hm, h]
  · intro h
    simp [hm, h]

/-- Counterexample state for C10: modified document, no active prompt,
fresh counter. -/
def exEd10 : EditorQ :=
  { is_modified := true
    is_file_loaded := true
    prompt_type := PromptType.NoPrompt
    quit_times := 0
    should_quit := false }

/-- Counterexample for C10: processing "dismiss" with no active prompt
runs `handle_quit` (after the reset), leaving the counter at 1, so the
editor quits after only two subsequent consecutive "quit" commands, and
a non-"quit" command does not always leave the counter at zero. -/
theorem EditorQ.dismiss_charges_quit_counter :
    (exEd10.process_command "dismiss").quit_times ≠ 0 ∧
    ((((exEd10.process_command "dismiss").process_command "quit").process_command
        "quit").should_quit = true) := by
  decide

/-- C10 amended: with a modified document and `should_quit` clear, a
"quit" command sets `should_quit` exactly when the counter has already
been charged twice (`quit_times + 1 = QUIT_TIMES`), otherwise it
increments the counter; every command other than "quit" and "dismiss"
resets the counter to zero without quitting; "dismiss" with an active
prompt resets it to zero, while "dismiss" with no active prompt resets
and then re-charges it to one (it acts as a quit attempt); from a fresh
counter, three consecutive "quit" commands are needed to quit. -/
theorem EditorQ.quit_confirmation (e : EditorQ) (hm : e.is_modified = true)
    (hs : e.should_quit = false) :
    ((e.process_command "quit").should_quit = true ↔
      e.quit_times + 1 = QUIT_TIMES) ∧
    ((e.process_command "quit").should_quit = false →
      (e.process_command "quit").quit_times = e.quit_times + 1) ∧
    (∀ cmd, cmd ≠ "quit" → cmd ≠ "dismiss" →
      (e.process_command cmd).quit_times = 0 ∧
      (e.process_command cmd).should_quit = false) ∧
    (e.prompt_type ≠ PromptType.NoPrompt →
      (e.process_command "dismiss").quit_times = 0 ∧
      (e.process_command "dismiss").should_quit = false) ∧
    (e.prompt_type = PromptType.NoPrompt →
      (e.process_command "dismiss").quit_times = 1 ∧
      (e.process_command "dismiss").should_quit = false) ∧
    (e.quit_times = 0 →
      (e.process_command "quit").should_quit = false ∧
      ((e.process_command "quit").process_command "quit").should_quit = false ∧
      (((e.process_command "quit").process_command "quit").process_command
          "quit").should_quit = true) := by
  have hq := EditorQ.handle_quit_modified e hm hs
  refine ⟨?_, ?_, ?_, ?_, ?_, ?_⟩
  · rw [EditorQ.process_command_quit]
    by_cases h : e.quit_times + 1 = QUIT_TIMES
    · rw [hq.1 h]
      simp [h]
    · rw [hq.2 h]
      simp [hs, h]
  · rw [EditorQ.process_command_quit]
    by_cases h : e.quit_times + 1 = QUIT_TIMES
    · rw [hq.1 h]
      simp
    · rw [hq.2 h]
      simp
  · intro cmd hc1 hc2
    unfold EditorQ.process_command
    rw [if_neg hc1]
    have hr := EditorQ.reset_quit_times_spec e
    by_cases h1 : cmd = "save"
    · rw [if_pos h1]
      unfold EditorQ.handle_save EditorQ.show_prompt
      by_cases h2 : (e.reset_quit_times).is_file_loaded
      · simp [h2, hr.1, hr.2.1, hs]
      · simp [h2, hr.1, hr.2.1, hs]
    · rw [if_neg h1]
      by_cases h2 : cmd = "find"
      · rw [if_pos h2]
        unfold EditorQ.show_prompt
        simp [hr.1, hr.2.1, hs]
      · rw [if_neg h2, if_neg hc2]
        by_cases h3 : cmd = "insert_newline"
        · rw [if_pos h3]
          unfold EditorQ.handle_enter_press
          by_cases h4 : (e.reset_quit_times).prompt_type ≠ PromptType.NoPrompt
          · simp [h4, hr.1, hr.2.1, hs]
          · simp [h4, hr.1, hr.2.1, hs]
        · rw [if_neg h3]
          exact ⟨hr.1, hr.2.1.trans hs⟩
  · intro hp
    have hr := EditorQ.reset_quit_times_spec e
    show (e.reset_quit_times).dismiss_prompt.quit_times = 0 ∧
      (e.reset_quit_times).dismiss_prompt.should_quit = false
    unfold EditorQ.dismiss_prompt
    rw [hr.2.2.2]
    cases hpt : e.prompt_type with
    | Save => simp [hr.1, hr.2.1, hs]
    | Find => simp [hr.1, hr.2.1, hs]
    | NoPrompt => exact absurd hpt hp
  · intro hp
    have hr := EditorQ.reset_quit_times_spec e
    show (e.reset_quit_times).dismiss_prompt.quit_times = 1 ∧
      (e.reset_quit_times).dismiss_prompt.should_quit = false
    unfold EditorQ.dismiss_prompt
    rw [hr.2.2.2, hp]
    have hq' := EditorQ.handle_quit_modified (e.reset_quit_times)
      (hr.2.2.1.trans hm) (hr.2.1.trans hs)
    have hne : (e.reset_quit_times).quit_times + 1 ≠ QUIT_TIMES := by
      rw [hr.1]
      decide
    rw [hq'.2 hne]
    simp [hr.1, hr.2.1, hs]
  · intro h0
    rw [EditorQ.process_command_quit]
    have h1 : e.quit_times + 1 ≠ QUIT_TIMES := by
      rw [h0]
      decide
    rw [hq.2 h1]
    have hq2 := EditorQ.handle_quit_modified { e with quit_times := e.quit_times + 1 }
      hm hs
    rw [EditorQ.process_command_quit]
    have h2 : e.quit_times + 1 + 1 ≠ QUIT_TIMES := by
      rw [h0]
      decide
    rw [hq2.2 h2]
    have hq3 := EditorQ.handle_quit_modified
      { e with quit_times := e.quit_times + 1 + 1 } hm hs
    rw [EditorQ.process_command_quit]
    have h3 : e.quit_times + 1 + 1 + 1 = QUIT_TIMES := by
      rw [h0]
      decide
    rw [hq3.1 h3]
    exact ⟨hs, hs, rfl⟩

/-- Witness for the amended C10 at `exEd10`: three consecutive "quit"
commands are needed from a fresh counter. -/
theorem EditorQ.quit_confirmation_witness :
    exEd10.is_modified = true ∧ exEd10.should_quit = false ∧
    exEd10.quit_times = 0 ∧
    (exEd10.process_command "quit").should_quit = false ∧
    ((exEd10.process_command "quit").process_command "quit").should_quit = false ∧
    (((exEd10.process_command "quit").process_command "quit").process_command
        "quit").should_quit = true := by
  have h := (EditorQ.quit_confirmation exEd10 rfl rfl).2.2.2.2.2 rfl
  exact ⟨rfl, rfl, rfl, h.1, h.2.1, h.2.2⟩
